import Mathlib

/-! Shallow embedding of `merge_geoip.py`: the location-index builder
(`_load_locations`), the pandas coercion of the optional identifier columns
to nullable `Int64` (`toNumeric?`, `toInt64`), the per-row country fallback
lookup (`_lookup_country`), the IP range computation (`_calc_ip_range`,
backed by a model of CPython `ipaddress.ip_network(..., strict=False)` for
both the IPv4 and the IPv6 family, zone ids included), and the core `merge`
routine that joins the two tables row by row.

CSV cells are modelled as strings (the script reads both tables with
`dtype="string"`); a missing or blank optional cell is `Option.none`.
Machine integers do not occur: Python integers are unbounded, addresses are
naturals below `2 ^ 32` respectively `2 ^ 128` by construction, and the
`Int64` range only appears as the explicit bound check of the cast. -/

namespace MergeGeoip

/-- The fatal error kinds of the program: a location row whose `geoname_id`
is not an integer, a block row whose `network` string no parser accepts, and
the uncaught pandas `TypeError` when an identifier column holds a numeric
value that the nullable `Int64` cast cannot represent. -/
inductive ParseError where
  | MalformedIdentifier : ParseError
  | MalformedNetwork : ParseError
  | Int64CastError : ParseError
deriving DecidableEq

/-- A raw row of the locations CSV: fields `geoname_id`, `country_iso_code`,
`country_name`, all read as strings. -/
structure LocRow where
  geoname_id : String
  country_iso_code : String
  country_name : String
deriving DecidableEq

/-- A raw row of the blocks CSV: the `network` field plus the three optional
location-reference cells (`none` models a missing or blank cell).  The
passthrough flag columns, which the script also casts when present, are not
modelled: the model corresponds to a table carrying exactly these four
columns. -/
structure BlockRow where
  network : String
  geoname_id : Option String
  registered_country_geoname_id : Option String
  represented_country_geoname_id : Option String
deriving DecidableEq

/-- One row of the output table, in the fixed column order
`_last_changed, network, start_ip, end_ip, code, name`. -/
structure OutRow where
  _last_changed : String
  network : String
  start_ip : String
  end_ip : String
  code : String
  name : String
deriving DecidableEq

/-- Helper for `pySplit`: walk the characters, cutting at each separator. -/
def pySplitAux (sep : Char) : List Char → List Char → List String
  | [], acc => [String.mk acc.reverse]
  | c :: cs, acc =>
    if c == sep then String.mk acc.reverse :: pySplitAux sep cs []
    else pySplitAux sep cs (c :: acc)

/-- Python `s.split(sep)` for a one-character separator: every occurrence
cuts, empty parts are kept, the empty string yields one empty part. -/
def pySplit (s : String) (sep : Char) : List String :=
  pySplitAux sep s.data []

/-- Decimal value of a digit string (callers guarantee all characters are
ASCII digits). -/
def digitsVal (cs : List Char) : Nat :=
  cs.foldl (fun a c => a * 10 + (c.toNat - 48)) 0

/-- Python `int(s)` for decimal strings: surrounding whitespace is stripped,
an optional single sign is allowed, then a nonempty run of ASCII digits;
anything else fails. -/
def pyInt? (s : String) : Option Int :=
  let t := ((s.data.dropWhile Char.isWhitespace).reverse.dropWhile Char.isWhitespace).reverse
  match t with
  | '-' :: ds =>
    if !ds.isEmpty && ds.all Char.isDigit then some (-(digitsVal ds : Int)) else none
  | '+' :: ds =>
    if !ds.isEmpty && ds.all Char.isDigit then some ((digitsVal ds : Int)) else none
  | ds =>
    if !ds.isEmpty && ds.all Char.isDigit then some ((digitsVal ds : Int)) else none

/-- A numeric value recognised by the pandas `to_numeric` parser: a finite
decimal (significand and decimal exponent, exact), an infinity, or NaN. -/
inductive PyNum where
  | finite : Int → Int → PyNum
  | inf : PyNum
  | nan : PyNum
deriving DecidableEq

/-- Exponent tail of a decimal literal: optional sign, then a nonempty run
of digits, nothing after. -/
def parseExp? (cs : List Char) : Option Int :=
  let (neg, rest) :=
    match cs with
    | '-' :: r => (true, r)
    | '+' :: r => (false, r)
    | r => (false, r)
  if rest.isEmpty || !(rest.all Char.isDigit) then none
  else
    let v : Int := (digitsVal rest : Int)
    some (if neg then -v else v)

/-- The pandas `to_numeric` string parser (the C tokenizer behind
`maybe_convert_numeric`): surrounding whitespace stripped, optional sign,
decimal digits with optional fractional part and optional exponent, or one
of the special spellings of infinity and NaN.  Exotic inputs (underscores,
hexadecimal, unicode digits) are not numeric.  The finite result is kept
exact; the float64 rounding a real parse performs is not modelled, which is
immaterial for identifier columns. -/
def toNumeric? (s : String) : Option PyNum :=
  let t := ((s.data.dropWhile Char.isWhitespace).reverse.dropWhile Char.isWhitespace).reverse
  if t.isEmpty then none
  else
    let (neg, rest) :=
      match t with
      | '-' :: r => (true, r)
      | '+' :: r => (false, r)
      | r => (false, r)
    let low := rest.map Char.toLower
    if low = ['i', 'n', 'f'] || low = ['i', 'n', 'f', 'i', 'n', 'i', 't', 'y'] then
      some PyNum.inf
    else if low = ['n', 'a', 'n'] then some PyNum.nan
    else
      let (d1, r1) := rest.span Char.isDigit
      let (d2, r2) :=
        match r1 with
        | '.' :: r => r.span Char.isDigit
        | r => ([], r)
      if d1.isEmpty && d2.isEmpty then none
      else
        let msig : Int := (digitsVal (d1 ++ d2) : Int)
        let m : Int := if neg then -msig else msig
        match r2 with
        | [] => some (PyNum.finite m (-(d2.length : Int)))
        | 'e' :: r3 => (parseExp? r3).map (fun ex => PyNum.finite m (ex - d2.length))
        | 'E' :: r3 => (parseExp? r3).map (fun ex => PyNum.finite m (ex - d2.length))
        | _ => none

/-- Exact integer value of `m * 10 ^ e` when it is an integer. -/
def decToInt? (m e : Int) : Option Int :=
  if 0 ≤ e then some (m * (10 : Int) ^ e.toNat)
  else if m % (10 : Int) ^ (-e).toNat = 0 then some (m / (10 : Int) ^ (-e).toNat)
  else none

/-- Outcome of casting one cell to the nullable `Int64` column type. -/
inductive CastResult where
  | na : CastResult
  | val : Int → CastResult
  | err : CastResult
deriving DecidableEq

/-- `pd.to_numeric(cell, errors="coerce").astype("Int64")` on one cell:
a missing or blank cell stays NA, a non-numeric cell is coerced to NaN and
hence NA ("nan" spells NaN directly), an integral in-range numeric becomes
its value, and a fractional, infinite or out-of-range numeric makes
`astype` raise - the fatal cast error. -/
def toInt64 (cell : Option String) : CastResult :=
  match cell with
  | none => CastResult.na
  | some s =>
    match toNumeric? s with
    | none => CastResult.na
    | some PyNum.nan => CastResult.na
    | some PyNum.inf => CastResult.err
    | some (PyNum.finite m e) =>
      match decToInt? m e with
      | none => CastResult.err
      | some v =>
        if -(2 ^ 63) ≤ v && v ≤ 2 ^ 63 - 1 then CastResult.val v else CastResult.err

/-- The identifier a cell contributes to the lookup: the cast value when the
cast yields one.  Cells on which the cast raises abort the run before the
lookup stage and never reach `_lookup_country`. -/
def coerceId (cell : Option String) : Option Int :=
  match toInt64 cell with
  | CastResult.val n => some n
  | _ => none

/-- True when the `Int64` cast of this cell raises. -/
def castFails (c : CastResult) : Bool :=
  match c with
  | CastResult.err => true
  | _ => false

/-- The `to_numeric`/`astype` preparation of the three identifier columns
succeeds on this row (the script casts column-wise; the run aborts exactly
when some cell of some row fails, so the row-wise check is equivalent). -/
def castRowOk (r : BlockRow) : Bool :=
  !(castFails (toInt64 r.geoname_id))
    && !(castFails (toInt64 r.registered_country_geoname_id))
    && !(castFails (toInt64 r.represented_country_geoname_id))

/-- The `geoname_id → (country_iso_code, country_name)` dictionary, kept as
the insertion-ordered list of bindings (a Python dict built row by row). -/
abbrev LocationIndex := List (Int × String × String)

/-- Python dict key membership (`k in d`). -/
def dictContains (m : LocationIndex) (k : Int) : Bool :=
  m.any (fun e => e.1 == k)

/-- Python dict lookup (`d[k]`): of several insertions with the same key the
most recent one wins. -/
def dictGet? (m : LocationIndex) (k : Int) : Option (String × String) :=
  (m.reverse.find? (fun e => e.1 == k)).map (fun e => e.2)

/-- `_load_locations`: build the dictionary row by row; `int(row.geoname_id)`
raising on a non-integer cell is the fatal `MalformedIdentifier` error. -/
def _load_locations : List LocRow → Except ParseError LocationIndex
  | [] => Except.ok []
  | r :: rest =>
    match pyInt? r.geoname_id with
    | none => Except.error ParseError.MalformedIdentifier
    | some n =>
      match _load_locations rest with
      | Except.error e => Except.error e
      | Except.ok m => Except.ok ((n, r.country_iso_code, r.country_name) :: m)

/-- The loop body of `_lookup_country`: scan the candidate keys in order;
a key that is absent (`NA`) or not in the dictionary is skipped, the first
key found in the dictionary returns its value immediately. -/
def lookupFirst (locations_map : LocationIndex) : List (Option Int) → Option (String × String)
  | [] => none
  | none :: rest => lookupFirst locations_map rest
  | some k :: rest =>
    if dictContains locations_map k then dictGet? locations_map k
    else lookupFirst locations_map rest

/-- `_lookup_country`: try `geoname_id`, then `registered_country_geoname_id`,
then `represented_country_geoname_id`; `none` models the `(None, None)`
result when no candidate resolves. -/
def _lookup_country (locations_map : LocationIndex) (row : BlockRow) : Option (String × String) :=
  lookupFirst locations_map
    [coerceId row.geoname_id,
     coerceId row.registered_country_geoname_id,
     coerceId row.represented_country_geoname_id]

/-- True when a dotted-quad octet string has a superfluous leading zero. -/
def hasLeadingZero : List Char → Bool
  | '0' :: _ :: _ => true
  | _ => false

/-- CPython `ipaddress._parse_octet`: a nonempty run of at most three ASCII
digits, no leading zero, value at most 255. -/
def _parse_octet (s : String) : Option Nat :=
  let cs := s.data
  if cs.isEmpty then none
  else if !(cs.all Char.isDigit) then none
  else if cs.length > 3 then none
  else if hasLeadingZero cs then none
  else
    let n := digitsVal cs
    if n ≤ 255 then some n else none

/-- CPython `ipaddress._ip_int_from_string` for IPv4: exactly four octets
joined by dots, big-endian packing. -/
def _ip_int_from_string (s : String) : Option Nat :=
  match (pySplit s '.').map _parse_octet with
  | [some a, some b, some c, some d] => some (((a * 256 + b) * 256 + c) * 256 + d)
  | _ => none

/-- The IPv4 netmask with `p` leading one bits, as an integer (`p ≤ 32`). -/
def netmaskInt (p : Nat) : Nat := 2 ^ 32 - 2 ^ (32 - p)

/-- The IPv4 hostmask complementing `netmaskInt p`: the low `32 - p` bits. -/
def hostmaskInt (p : Nat) : Nat := 2 ^ (32 - p) - 1

/-- CPython `ipaddress._prefix_from_prefix_string` for IPv4: a nonempty
all-digit string whose value is at most 32. -/
def _prefix_from_prefix_string (s : String) : Option Nat :=
  let cs := s.data
  if cs.isEmpty || !(cs.all Char.isDigit) then none
  else
    let n := digitsVal cs
    if n ≤ 32 then some n else none

/-- CPython `ipaddress._prefix_from_ip_int`: recognise an integer that is a
valid IPv4 netmask and return its count of leading one bits. -/
def _prefix_from_ip_int (m : Nat) : Option Nat :=
  (List.range 33).find? (fun p => netmaskInt p == m)

/-- CPython `IPv4Network._make_netmask` on the part after the slash: first a
plain numeric length; failing that a dotted-quad netmask; failing that a
dotted-quad hostmask (the complemented form). -/
def _make_netmask (s : String) : Option Nat :=
  match _prefix_from_prefix_string s with
  | some p => some p
  | none =>
    match _ip_int_from_string s with
    | none => none
    | some m =>
      match _prefix_from_ip_int m with
      | some p => some p
      | none => _prefix_from_ip_int (m ^^^ (2 ^ 32 - 1))

/-- `IPv4Network(s, strict=False)`, returned as the pair (network address as
integer, length of the network part).  At most one slash; a bare address
gets length 32; the non-strict mode masks the address to the network base
(`ip & netmask`, here the equivalent zeroing of the low `32 - p` bits by
division). -/
def IPv4Network_parse? (s : String) : Option (Nat × Nat) :=
  match pySplit s '/' with
  | [addr] =>
    match _ip_int_from_string addr with
    | some ip => some (ip, 32)
    | none => none
  | [addr, mstr] =>
    match _ip_int_from_string addr, _make_netmask mstr with
    | some ip, some pl => some ((ip / 2 ^ (32 - pl)) * 2 ^ (32 - pl), pl)
    | _, _ => none
  | _ => none

/-- `str(IPv4Address(n))`: dotted-decimal rendering of a 32-bit integer. -/
def _string_from_ip_int (n : Nat) : String :=
  toString (n / 2 ^ 24 % 256) ++ "." ++ toString (n / 2 ^ 16 % 256) ++ "." ++
    toString (n / 2 ^ 8 % 256) ++ "." ++ toString (n % 256)

/-- An ASCII hexadecimal digit, either case (CPython `_HEX_DIGITS`). -/
def isHexChar (c : Char) : Bool :=
  c.isDigit || ('a' ≤ c && c ≤ 'f') || ('A' ≤ c && c ≤ 'F')

/-- Value of one hexadecimal digit. -/
def hexDigitVal (c : Char) : Nat :=
  if c.isDigit then c.toNat - 48
  else if 'a' ≤ c then c.toNat - 87
  else c.toNat - 55

/-- Value of a hexadecimal digit string. -/
def hexVal (cs : List Char) : Nat :=
  cs.foldl (fun a c => a * 16 + hexDigitVal c) 0

/-- CPython `ipaddress._parse_hextet`: one to four hexadecimal digits. -/
def _parse_hextet (s : String) : Option Nat :=
  let cs := s.data
  if cs.isEmpty then none
  else if !(cs.all isHexChar) then none
  else if cs.length > 4 then none
  else some (hexVal cs)

/-- Lowercase hexadecimal rendering without padding (Python `'%x' % n`). -/
def hexStr (n : Nat) : String := String.mk (Nat.toDigits 16 n)

/-- Parse a list of hextet strings, failing if any one fails. -/
def parseHextets? : List String → Option (List Nat)
  | [] => some []
  | h :: t =>
    match _parse_hextet h, parseHextets? t with
    | some v, some vs => some (v :: vs)
    | _, _ => none

/-- Big-endian assembly of hextet values. -/
def hextetsToNat (vs : List Nat) : Nat :=
  vs.foldl (fun a v => a * 65536 + v) 0

/-- Positions of empty parts strictly between the first and last part (the
candidates for the `::` gap). -/
def interiorEmptyIndices (parts : List String) : List Nat :=
  (List.range parts.length).filter
    (fun i => decide (0 < i) && decide (i + 1 < parts.length) && (parts.getD i (r" ")).isEmpty)

/-- CPython `ipaddress._ip_int_from_string` for IPv6: split on colons, fold
an embedded dotted-quad tail into two hextets, allow at most one `::` gap
(a leading or trailing lone colon only as part of it), and assemble the
128-bit integer from the high parts, the zero gap and the low parts. -/
def _ip_int_from_string_v6 (s : String) : Option Nat :=
  let parts0 := pySplit s ':'
  if parts0.length < 3 then none
  else
    let conv : Option (List String) :=
      if (parts0.getLastD (r"")).data.contains '.' then
        match _ip_int_from_string (parts0.getLastD (r"")) with
        | some v4 => some (parts0.dropLast ++ [hexStr (v4 / 65536), hexStr (v4 % 65536)])
        | none => none
      else some parts0
    match conv with
    | none => none
    | some parts =>
      if parts.length > 9 then none
      else
        match interiorEmptyIndices parts with
        | [] =>
          if parts.length = 8 then
            match parseHextets? parts with
            | some vs => some (hextetsToNat vs)
            | none => none
          else none
        | [i] =>
          let hi0 := i
          let lo0 := parts.length - i - 1
          if (parts.headD (r"")).isEmpty && hi0 ≠ 1 then none
          else if (parts.getLastD (r"")).isEmpty && lo0 ≠ 1 then none
          else
            let hi := if (parts.headD (r"")).isEmpty then hi0 - 1 else hi0
            let lo := if (parts.getLastD (r"")).isEmpty then lo0 - 1 else lo0
            if hi + lo > 7 then none
            else
              match parseHextets? (parts.take hi), parseHextets? (parts.drop (parts.length - lo)) with
              | some hvs, some lvs =>
                some (hextetsToNat hvs * 2 ^ (16 * (8 - hi)) + hextetsToNat lvs)
              | _, _ => none
        | _ => none

/-- The IPv6 hostmask for network-part length `p`: the low `128 - p` bits. -/
def hostmaskInt6 (p : Nat) : Nat := 2 ^ (128 - p) - 1

/-- CPython `ipaddress._prefix_from_prefix_string` for IPv6: a nonempty
all-digit string whose value is at most 128 (`IPv6Network._make_netmask`
accepts only this form, no address-shaped masks). -/
def _prefix_from_prefix_string_v6 (s : String) : Option Nat :=
  let cs := s.data
  if cs.isEmpty || !(cs.all Char.isDigit) then none
  else
    let n := digitsVal cs
    if n ≤ 128 then some n else none

/-- CPython `IPv6Address._split_scope_id`: at most one percent sign, and the
zone id after it must be nonempty. -/
def _split_scope_id (s : String) : Option (String × Option String) :=
  match pySplit s '%' with
  | [a] => some (a, none)
  | [a, sc] => if sc.isEmpty then none else some (a, some sc)
  | _ => none

/-- `IPv6Address(s)`: the 128-bit integer and the optional zone id. -/
def IPv6Address_parse? (s : String) : Option (Nat × Option String) :=
  match _split_scope_id s with
  | none => none
  | some (addr, sc) =>
    match _ip_int_from_string_v6 addr with
    | some ip => some (ip, sc)
    | none => none

/-- `IPv6Network(s, strict=False)`: network integer, length of the network
part, and the zone id the network address keeps (the original address
object survives, zone included, exactly when no re-masking was needed). -/
def IPv6Network_parse? (s : String) : Option (Nat × Nat × Option String) :=
  match pySplit s '/' with
  | [addr] =>
    match IPv6Address_parse? addr with
    | some (ip, sc) => some (ip, 128, sc)
    | none => none
  | [addr, pstr] =>
    match IPv6Address_parse? addr, _prefix_from_prefix_string_v6 pstr with
    | some (ip, sc), some pl =>
      let net := (ip / 2 ^ (128 - pl)) * 2 ^ (128 - pl)
      some (net, pl, if net = ip then sc else none)
    | _, _ => none
  | _ => none

/-- Maximal runs of the hextet string `0`, as (start, length) pairs. -/
def zeroRunsAux : List String → Nat → Option (Nat × Nat) → List (Nat × Nat)
  | [], _, none => []
  | [], _, some run => [run]
  | h :: t, i, cur =>
    if h = "0" then
      match cur with
      | none => zeroRunsAux t (i + 1) (some (i, 1))
      | some (st, l) => zeroRunsAux t (i + 1) (some (st, l + 1))
    else
      match cur with
      | none => zeroRunsAux t (i + 1) none
      | some run => run :: zeroRunsAux t (i + 1) none

/-- The leftmost longest zero run (CPython updates its best run only on a
strictly longer one). -/
def bestZeroRun (hs : List String) : Option (Nat × Nat) :=
  (zeroRunsAux hs 0 none).foldl
    (fun best run =>
      match best with
      | none => some run
      | some b => if run.2 > b.2 then some run else some b)
    none

/-- CPython `ipaddress._compress_hextets`: replace the leftmost longest run
of at least two zero hextets by an empty part, padding an empty part at a
touched end so that joining with colons prints `::`. -/
def _compress_hextets (hextets : List String) : List String :=
  match bestZeroRun hextets with
  | some (st, l) =>
    if l > 1 then
      let pre := hextets.take st
      let post0 := hextets.drop (st + l)
      let post := if post0.isEmpty then [r""] else post0
      let res := pre ++ [r""] ++ post
      if st = 0 then r"" :: res else res
    else hextets
  | none => hextets

/-- Join parts with colons. -/
def joinColon : List String → String
  | [] => ""
  | [x] => x
  | x :: xs => x ++ ":" ++ joinColon xs

/-- `str(IPv6Address(n))`: eight lowercase hextets with the longest zero run
compressed to `::`. -/
def _string_from_ip_int_v6 (n : Nat) : String :=
  let hextets := (List.range 8).map (fun i => hexStr (n / 2 ^ (16 * (7 - i)) % 65536))
  joinColon (_compress_hextets hextets)

/-- The `%zone` suffix of a scoped address rendering. -/
def scopeSuffix : Option String → String
  | none => ""
  | some sc => "%" ++ sc

/-- A parsed network of either address family, as `ipaddress.ip_network`
returns it: the IPv4 interpretation is tried first, then the IPv6 one. -/
inductive AnyNetwork where
  | v4 : Nat → Nat → AnyNetwork
  | v6 : Nat → Nat → Option String → AnyNetwork
deriving DecidableEq

/-- `ipaddress.ip_network(s, strict=False)`: try `IPv4Network`, then
`IPv6Network`. -/
def ip_network (s : String) : Option AnyNetwork :=
  match IPv4Network_parse? s with
  | some np => some (AnyNetwork.v4 np.1 np.2)
  | none =>
    match IPv6Network_parse? s with
    | some t => some (AnyNetwork.v6 t.1 t.2.1 t.2.2)
    | none => none

/-- `_calc_ip_range`: `(str(net.network_address), str(net.broadcast_address))`
for either family, where the broadcast address is `network | hostmask` (and
never carries a zone id); an unparseable network string is the fatal
`MalformedNetwork` error. -/
def _calc_ip_range (cidr : String) : Except ParseError (String × String) :=
  match ip_network cidr with
  | none => Except.error ParseError.MalformedNetwork
  | some (AnyNetwork.v4 net pl) =>
    Except.ok (_string_from_ip_int net, _string_from_ip_int (net ||| hostmaskInt pl))
  | some (AnyNetwork.v6 net pl sc) =>
    Except.ok (_string_from_ip_int_v6 net ++ scopeSuffix sc,
      _string_from_ip_int_v6 (net ||| hostmaskInt6 pl))

/-- One output row of `merge` for one block row: the country fallback
lookup, the CIDR range, the broadcast timestamp, and the final `fillna` with
an empty string that renders an unresolved country as two empty strings.
(The script runs the lookup over all rows before the range computation;
with fatal-error semantics the combined per-row form yields the same
`Except` result.) -/
def enrichRow (locations_map : LocationIndex) (timestamp : String) (r : BlockRow) :
    Except ParseError OutRow :=
  match _calc_ip_range r.network with
  | Except.error e => Except.error e
  | Except.ok (sip, eip) =>
    match _lookup_country locations_map r with
    | some cn =>
      Except.ok { _last_changed := timestamp, network := r.network,
                  start_ip := sip, end_ip := eip, code := cn.1, name := cn.2 }
    | none =>
      Except.ok { _last_changed := timestamp, network := r.network,
                  start_ip := sip, end_ip := eip, code := "", name := "" }

/-- The row loop of `merge`: process the block rows in order, stopping at
the first fatal error. -/
def enrichRows (locations_map : LocationIndex) (timestamp : String) :
    List BlockRow → Except ParseError (List OutRow)
  | [] => Except.ok []
  | r :: rest =>
    match enrichRow locations_map timestamp r with
    | Except.error e => Except.error e
    | Except.ok out =>
      match enrichRows locations_map timestamp rest with
      | Except.error e => Except.error e
      | Except.ok outs => Except.ok (out :: outs)

/-- `merge(locations_csv, blocks_csv, timestamp)` at the row level: build
the location index, cast the identifier columns to nullable `Int64`
(aborting on a cell the cast cannot represent), then enrich every block
row with country data, IP range and the broadcast timestamp. -/
def merge (location_rows : List LocRow) (block_rows : List BlockRow) (timestamp : String) :
    Except ParseError (List OutRow) :=
  match _load_locations location_rows with
  | Except.error e => Except.error e
  | Except.ok locations_map =>
    if block_rows.all castRowOk then enrichRows locations_map timestamp block_rows
    else Except.error ParseError.Int64CastError

/-- A candidate cell is skipped by `_lookup_country`: it casts to NA (the
cell is absent, blank or non-numeric) or its id is not a key of the index.
A cell on which the cast raises aborts the run before resolution and is not
a skip. -/
def candSkipped (m : LocationIndex) (c : Option String) : Bool :=
  match toInt64 c with
  | CastResult.na => true
  | CastResult.val n => !(dictContains m n)
  | CastResult.err => false

/-- A small location index used by the concrete example rows below. -/
def demoIndex : LocationIndex :=
  [((1 : Int), r"US", r"United States"), ((2 : Int), r"DE", r"Germany")]

/-- The location rows that load to `demoIndex`. -/
def demoLocRows : List LocRow :=
  [{ geoname_id := r"1", country_iso_code := r"US", country_name := r"United States" },
   { geoname_id := r"2", country_iso_code := r"DE", country_name := r"Germany" }]

/-- A block row whose primary and registered ids both resolve in
`demoIndex`, to two different countries. -/
def demoBlock : BlockRow :=
  { network := r"1.2.3.0/24", geoname_id := some (r"1"),
    registered_country_geoname_id := some (r"2"),
    represented_country_geoname_id := none }

/-- A block row whose primary id is the float-formatted cell `1.0` (a CSV
artifact pandas coerces to the id 1) and whose registered id also
resolves, to a different country. -/
def floatIdBlock : BlockRow :=
  { network := r"1.2.3.0/24", geoname_id := some (r"1.0"),
    registered_country_geoname_id := some (r"2"),
    represented_country_geoname_id := none }

/-- A block row with an invalid network string. -/
def badBlock : BlockRow :=
  { network := r"not-a-cidr", geoname_id := none,
    registered_country_geoname_id := none,
    represented_country_geoname_id := none }

/-- A block row whose three candidate ids are unresolvable against
`demoIndex`: unknown id, non-numeric cell, absent cell. -/
def noMatchBlock : BlockRow :=
  { network := r"10.0.0.5/30", geoname_id := some (r"999"),
    registered_country_geoname_id := some (r"x"),
    represented_country_geoname_id := none }

/-- A block row whose network is an IPv6 CIDR string. -/
def v6Block : BlockRow :=
  { network := r"2001:db8::/32", geoname_id := none,
    registered_country_geoname_id := none,
    represented_country_geoname_id := none }

/-- A location row that reuses the geoname id 1 of `demoLocRows` with a
different country. -/
def dupRow : LocRow :=
  { geoname_id := r"1", country_iso_code := r"FR", country_name := r"France" }

/-- A timestamp string in the format the CLI validates. -/
def demoTs : String := "09.10.2026 10:00:00"

/-- The output of `merge demoLocRows [demoBlock] demoTs`. -/
def demoOut : List OutRow :=
  [{ _last_changed := demoTs, network := r"1.2.3.0/24", start_ip := r"1.2.3.0",
     end_ip := r"1.2.3.255", code := r"US", name := r"United States" }]

/-- A location row whose identifier is not numeric. -/
def badLocRow : LocRow :=
  { geoname_id := r"x", country_iso_code := r"ZZ", country_name := r"Nowhere" }

theorem lookupFirst_skip (m : LocationIndex) (c : Option Int) (rest : List (Option Int))
    (h : ∀ n, c = some n → dictContains m n = false) :
    lookupFirst m (c :: rest) = lookupFirst m rest := by
  cases c with
  | none => rfl
  | some k =>
    have hk := h k rfl
    simp [lookupFirst, hk]

theorem candSkipped_spec (m : LocationIndex) (c : Option String)
    (h : candSkipped m c = true) :
    ∀ n, coerceId c = some n → dictContains m n = false := by
  intro n hn
  unfold candSkipped at h
  unfold coerceId at hn
  cases hc : toInt64 c with
  | na =>
    rw [hc] at hn
    cases hn
  | err =>
    rw [hc] at h
    cases h
  | val k =>
    rw [hc] at h hn
    injection hn with h1
    subst h1
    simpa using h

theorem or_low_bits (q k : Nat) : q * 2 ^ k ||| (2 ^ k - 1) = q * 2 ^ k + (2 ^ k - 1) := by
  apply Nat.eq_of_testBit_eq
  intro j
  have hb : 2 ^ k - 1 < 2 ^ k := Nat.sub_lt (Nat.two_pow_pos k) Nat.one_pos
  rw [Nat.testBit_lor, Nat.mul_comm q (2 ^ k), Nat.testBit_mul_pow_two,
    Nat.testBit_mul_pow_two_add q hb j, Nat.testBit_two_pow_sub_one]
  by_cases h : j < k
  · simp [h, Nat.not_le.mpr h]
  · simp [h, Nat.not_lt.mp h]

theorem v4_parse_masked (cidr : String) (net p : Nat)
    (h : IPv4Network_parse? cidr = some (net, p)) :
    net % 2 ^ (32 - p) = 0 := by
  unfold IPv4Network_parse? at h
  split at h
  · split at h
    · injection h with h1
      have h2 := congrArg Prod.snd h1
      simp only at h2
      subst h2
      simp only [Nat.sub_self, pow_zero]
      exact Nat.mod_one net
    · cases h
  · split at h
    · injection h with h1
      have h2 := congrArg Prod.fst h1
      have h3 := congrArg Prod.snd h1
      simp only at h2 h3
      subst h3
      rw [← h2]
      simp [Nat.mul_mod_left]
    · cases h
  · cases h

theorem ip_network_of_v4 (s : String) (net p : Nat)
    (h : IPv4Network_parse? s = some (net, p)) :
    ip_network s = some (AnyNetwork.v4 net p) := by
  simp [ip_network, h]

/-- C1: country resolution examines `geoname_id`, then
`registered_country_geoname_id`, then `represented_country_geoname_id`;
a candidate that is absent, blank, non-numeric or not a key of the index is
skipped, and the first candidate whose cast id is a key of the index
returns that entry of the index, the remaining candidates unexamined; in
particular when both the primary and the registered id resolve, the primary
id determines the result. -/
theorem C1_fallback_first_match_wins (m : LocationIndex) (r : BlockRow) :
    (∀ n, coerceId r.geoname_id = some n → dictContains m n = true →
        _lookup_country m r = dictGet? m n)
    ∧ (candSkipped m r.geoname_id = true →
        ∀ n, coerceId r.registered_country_geoname_id = some n → dictContains m n = true →
          _lookup_country m r = dictGet? m n)
    ∧ (candSkipped m r.geoname_id = true →
        candSkipped m r.registered_country_geoname_id = true →
        ∀ n, coerceId r.represented_country_geoname_id = some n → dictContains m n = true →
          _lookup_country m r = dictGet? m n) := by
  refine ⟨?_, ?_, ?_⟩
  · intro n hn hc
    unfold _lookup_country
    rw [hn]
    simp [lookupFirst, hc]
  · intro h1 n hn hc
    unfold _lookup_country
    rw [lookupFirst_skip m _ _ (candSkipped_spec m _ h1), hn]
    simp [lookupFirst, hc]
  · intro h1 h2 n hn hc
    unfold _lookup_country
    rw [lookupFirst_skip m _ _ (candSkipped_spec m _ h1),
        lookupFirst_skip m _ _ (candSkipped_spec m _ h2), hn]
    simp [lookupFirst, hc]

/-- Witness for C1: a float-formatted primary cell `1.0` casts to the id 1
(United States in the demo index) and beats the registered id 2 (Germany);
the result is the primary entry. -/
theorem C1_fallback_first_match_wins_witness :
    coerceId floatIdBlock.geoname_id = some 1
    ∧ dictContains demoIndex 1 = true
    ∧ _lookup_country demoIndex floatIdBlock = dictGet? demoIndex 1
    ∧ dictGet? demoIndex 1 = some (r"US", r"United States")
    ∧ dictGet? demoIndex 2 = some (r"DE", r"Germany") :=
  ⟨by decide, by decide,
    (C1_fallback_first_match_wins demoIndex floatIdBlock).1 1 (by decide) (by decide),
    by decide, by decide⟩

/-- C4: a block row whose three candidate ids are all skipped (absent or
unresolvable) is not an error: its output row is produced with code and
name both equal to the empty string. -/
theorem C4_no_match_empty_strings (m : LocationIndex) (ts : String) (r : BlockRow)
    (h1 : candSkipped m r.geoname_id = true)
    (h2 : candSkipped m r.registered_country_geoname_id = true)
    (h3 : candSkipped m r.represented_country_geoname_id = true)
    (sip eip : String) (hc : _calc_ip_range r.network = Except.ok (sip, eip)) :
    enrichRow m ts r = Except.ok ⟨ts, r.network, sip, eip, r"", r""⟩ := by
  have hl : _lookup_country m r = none := by
    unfold _lookup_country
    rw [lookupFirst_skip m _ _ (candSkipped_spec m _ h1),
        lookupFirst_skip m _ _ (candSkipped_spec m _ h2),
        lookupFirst_skip m _ _ (candSkipped_spec m _ h3)]
    rfl
  simp [enrichRow, hc, hl]

/-- Witness for C4: a row with an unknown id, a non-numeric id and an absent
id yields its output row with empty code and name. -/
theorem C4_no_match_empty_strings_witness :
    candSkipped demoIndex noMatchBlock.geoname_id = true
    ∧ candSkipped demoIndex noMatchBlock.registered_country_geoname_id = true
    ∧ candSkipped demoIndex noMatchBlock.represented_country_geoname_id = true
    ∧ _calc_ip_range noMatchBlock.network = Except.ok (r"10.0.0.4", r"10.0.0.7")
    ∧ enrichRow demoIndex demoTs noMatchBlock =
        Except.ok ⟨demoTs, noMatchBlock.network, r"10.0.0.4", r"10.0.0.7", r"", r""⟩ :=
  ⟨by decide, by decide, by decide, rfl,
    C4_no_match_empty_strings demoIndex demoTs noMatchBlock (by decide) (by decide) (by decide)
      (r"10.0.0.4") (r"10.0.0.7") rfl⟩

/-- C2: whenever the network string parses as an IPv4 CIDR with network part
length p, the start address is the network base (its host bits are zero) and
the end address is start + (2 ^ (32 - p) - 1); the two examples of the spec
evaluate accordingly. -/
theorem C2_cidr_range_formula :
    (∀ cidr net p, IPv4Network_parse? cidr = some (net, p) →
        net % 2 ^ (32 - p) = 0 ∧
        _calc_ip_range cidr =
          Except.ok (_string_from_ip_int net, _string_from_ip_int (net + (2 ^ (32 - p) - 1))))
    ∧ _calc_ip_range (r"198.51.100.0/24") = Except.ok (r"198.51.100.0", r"198.51.100.255")
    ∧ _calc_ip_range (r"203.0.113.128/25") = Except.ok (r"203.0.113.128", r"203.0.113.255") := by
  refine ⟨?_, rfl, rfl⟩
  intro cidr net p h
  have hmask := v4_parse_masked cidr net p h
  refine ⟨hmask, ?_⟩
  have hq : net / 2 ^ (32 - p) * 2 ^ (32 - p) = net :=
    Nat.div_mul_cancel (Nat.dvd_of_mod_eq_zero hmask)
  have hb : net ||| hostmaskInt p = net + (2 ^ (32 - p) - 1) := by
    rw [hostmaskInt, ← hq]
    exact or_low_bits (net / 2 ^ (32 - p)) (32 - p)
  simp [_calc_ip_range, ip_network_of_v4 cidr net p h, hb]

/-- Witness for C2: the first example network instantiates the universal
part at network integer 3325256704 and length 24. -/
theorem C2_cidr_range_formula_witness :
    IPv4Network_parse? (r"198.51.100.0/24") = some (3325256704, 24)
    ∧ (3325256704 % 2 ^ (32 - 24) = 0
      ∧ _calc_ip_range (r"198.51.100.0/24") =
          Except.ok (_string_from_ip_int 3325256704,
            _string_from_ip_int (3325256704 + (2 ^ (32 - 24) - 1)))) :=
  ⟨by decide, C2_cidr_range_formula.1 (r"198.51.100.0/24") 3325256704 24 (by decide)⟩

/-- C5: CIDR parsing is non-strict: any IPv4 address/length input whose two
parts parse is accepted, with the address masked down to the network base,
even when host bits are set; the spec examples with host bits set evaluate
to the masked ranges. -/
theorem C5_host_bits_masked :
    (∀ s a ms ip pl, pySplit s '/' = [a, ms] → _ip_int_from_string a = some ip →
        _make_netmask ms = some pl →
        IPv4Network_parse? s = some ((ip / 2 ^ (32 - pl)) * 2 ^ (32 - pl), pl))
    ∧ _calc_ip_range (r"10.0.0.5/30") = Except.ok (r"10.0.0.4", r"10.0.0.7")
    ∧ _calc_ip_range (r"203.0.113.5/24") = Except.ok (r"203.0.113.0", r"203.0.113.255") := by
  refine ⟨?_, rfl, rfl⟩
  intro s a ms ip pl h1 h2 h3
  simp [IPv4Network_parse?, h1, h2, h3]

/-- Witness for C5: the host-bit-set address 10.0.0.5 with length 30 is
accepted and masked rather than rejected. -/
theorem C5_host_bits_masked_witness :
    pySplit (r"10.0.0.5/30") '/' = [r"10.0.0.5", r"30"]
    ∧ _ip_int_from_string (r"10.0.0.5") = some 167772165
    ∧ _make_netmask (r"30") = some 30
    ∧ IPv4Network_parse? (r"10.0.0.5/30") = some (167772165 / 2 ^ (32 - 30) * 2 ^ (32 - 30), 30) :=
  ⟨by decide, by decide, by decide,
    C5_host_bits_masked.1 (r"10.0.0.5/30") (r"10.0.0.5") (r"30") 167772165 30
      (by decide) (by decide) (by decide)⟩

/-- C10: a block row whose network field is a bare dotted-decimal IPv4
address with no slash part is accepted and treated as a single-host /32
network, with identical start and end addresses. -/
theorem C10_bare_address_is_slash32 (s : String) (ip : Nat)
    (hsplit : pySplit s '/' = [s])
    (hip : _ip_int_from_string s = some ip) :
    IPv4Network_parse? s = some (ip, 32)
    ∧ _calc_ip_range s = Except.ok (_string_from_ip_int ip, _string_from_ip_int ip) := by
  have hn : IPv4Network_parse? s = some (ip, 32) := by
    simp [IPv4Network_parse?, hsplit, hip]
  refine ⟨hn, ?_⟩
  have h0 : hostmaskInt 32 = 0 := rfl
  simp [_calc_ip_range, ip_network_of_v4 s ip 32 hn, h0]

/-- Witness for C10: the bare address 192.0.2.17 yields the /32 range whose
start and end both render back to 192.0.2.17. -/
theorem C10_bare_address_is_slash32_witness :
    pySplit (r"192.0.2.17") '/' = [r"192.0.2.17"]
    ∧ _ip_int_from_string (r"192.0.2.17") = some 3221226001
    ∧ (IPv4Network_parse? (r"192.0.2.17") = some (3221226001, 32)
      ∧ _calc_ip_range (r"192.0.2.17") =
          Except.ok (_string_from_ip_int 3221226001, _string_from_ip_int 3221226001))
    ∧ _string_from_ip_int 3221226001 = r"192.0.2.17" :=
  ⟨by decide, by decide,
    C10_bare_address_is_slash32 (r"192.0.2.17") 3221226001 (by decide) (by decide),
    by decide⟩

theorem enrichRow_cases (m : LocationIndex) (ts : String) (r : BlockRow) :
    (ip_network r.network = none ∧ enrichRow m ts r = Except.error ParseError.MalformedNetwork)
    ∨ ((∃ nw, ip_network r.network = some nw) ∧ ∃ out, enrichRow m ts r = Except.ok out) := by
  cases hn : ip_network r.network with
  | none => exact Or.inl ⟨rfl, by simp [enrichRow, _calc_ip_range, hn]⟩
  | some nw =>
    refine Or.inr ⟨⟨_, rfl⟩, ?_⟩
    have hcalc : ∃ pr, _calc_ip_range r.network = Except.ok pr := by
      cases nw with
      | v4 net pl =>
        exact ⟨(_string_from_ip_int net, _string_from_ip_int (net ||| hostmaskInt pl)),
          by simp [_calc_ip_range, hn]⟩
      | v6 net pl sc =>
        exact ⟨(_string_from_ip_int_v6 net ++ scopeSuffix sc,
          _string_from_ip_int_v6 (net ||| hostmaskInt6 pl)), by simp [_calc_ip_range, hn]⟩
    obtain ⟨⟨sip, eip⟩, hcalc⟩ := hcalc
    cases hlc : _lookup_country m r with
    | none => exact ⟨⟨ts, r.network, sip, eip, r"", r""⟩, by simp [enrichRow, hcalc, hlc]⟩
    | some cn => exact ⟨⟨ts, r.network, sip, eip, cn.1, cn.2⟩, by simp [enrichRow, hcalc, hlc]⟩

theorem enrichRows_cons_ok (m : LocationIndex) (ts : String) (r : BlockRow) (out : OutRow)
    (rest : List BlockRow) (h : enrichRow m ts r = Except.ok out) (e : ParseError) :
    (enrichRows m ts (r :: rest) = Except.error e ↔ enrichRows m ts rest = Except.error e) := by
  simp only [enrichRows, h]
  cases hrest : enrichRows m ts rest <;> simp

theorem enrichRows_error_spec (m : LocationIndex) (ts : String) (blocks : List BlockRow) :
    (enrichRows m ts blocks = Except.error ParseError.MalformedNetwork
      ↔ ∃ r, r ∈ blocks ∧ ip_network r.network = none)
    ∧ ∀ e, enrichRows m ts blocks = Except.error e → e = ParseError.MalformedNetwork := by
  induction blocks with
  | nil => simp [enrichRows]
  | cons r rest ih =>
    rcases enrichRow_cases m ts r with ⟨hn, he⟩ | ⟨⟨nw, hnw⟩, out, ho⟩
    · constructor
      · constructor
        · intro _
          exact ⟨r, List.mem_cons_self r rest, hn⟩
        · intro _
          simp [enrichRows, he]
      · intro e hE
        simp only [enrichRows, he] at hE
        injection hE with h1
        exact h1.symm
    · constructor
      · rw [enrichRows_cons_ok m ts r out rest ho]
        rw [ih.1]
        constructor
        · rintro ⟨r2, hr2, hbad⟩
          exact ⟨r2, List.mem_cons_of_mem r hr2, hbad⟩
        · rintro ⟨r2, hr2, hbad⟩
          rcases List.mem_cons.mp hr2 with rfl | hr2'
          · rw [hnw] at hbad
            cases hbad
          · exact ⟨r2, hr2', hbad⟩
      · intro e hE
        exact ih.2 e ((enrichRows_cons_ok m ts r out rest ho e).mp hE)

/-- C3 (amended): with the location index loaded and the identifier casts
succeeding, the run fails with the fatal MalformedNetwork error exactly when
some block row has a network field that neither the IPv4 nor the IPv6
parser of `ipaddress.ip_network` accepts; no other error kind occurs then,
and a successful run certifies that no block row was malformed (no partial
or best-effort output exists). -/
theorem C3_malformed_network_fatal (locs : List LocRow) (blocks : List BlockRow) (ts : String)
    (m : LocationIndex) (hm : _load_locations locs = Except.ok m)
    (hcast : blocks.all castRowOk = true) :
    (merge locs blocks ts = Except.error ParseError.MalformedNetwork
      ↔ ∃ r, r ∈ blocks ∧ ip_network r.network = none)
    ∧ (∀ e, merge locs blocks ts = Except.error e → e = ParseError.MalformedNetwork)
    ∧ (∀ outs, merge locs blocks ts = Except.ok outs →
        ∀ r, r ∈ blocks → ip_network r.network ≠ none) := by
  have hmerge : merge locs blocks ts = enrichRows m ts blocks := by
    simp [merge, hm, hcast]
  rw [hmerge]
  obtain ⟨hiff, honly⟩ := enrichRows_error_spec m ts blocks
  refine ⟨hiff, honly, ?_⟩
  intro outs ho r hr hbad
  have hcontra : enrichRows m ts blocks = Except.error ParseError.MalformedNetwork :=
    hiff.mpr ⟨r, hr, hbad⟩
  rw [ho] at hcontra
  cases hcontra

/-- Counterexample to C3 as stated: the IPv6 CIDR string 2001:db8::/32 is
not a valid IPv4 CIDR string, yet the run does not abort - it produces an
output row with the IPv6 range, because `ipaddress.ip_network` accepts both
address families. -/
theorem C3_ipv6_network_accepted_counterexample :
    IPv4Network_parse? (r"2001:db8::/32") = none
    ∧ merge demoLocRows [v6Block] demoTs =
        Except.ok [⟨demoTs, r"2001:db8::/32", r"2001:db8::",
          r"2001:db8:ffff:ffff:ffff:ffff:ffff:ffff", r"", r""⟩] :=
  ⟨rfl, rfl⟩

/-- Witness for C3: a block row whose network field reads not-a-cidr is
rejected by both family parsers and aborts the whole run with
MalformedNetwork. -/
theorem C3_malformed_network_fatal_witness :
    _load_locations demoLocRows = Except.ok demoIndex
    ∧ [badBlock].all castRowOk = true
    ∧ merge demoLocRows [badBlock] demoTs = Except.error ParseError.MalformedNetwork :=
  ⟨rfl, rfl,
    (C3_malformed_network_fatal demoLocRows [badBlock] demoTs demoIndex rfl rfl).1.mpr
      ⟨badBlock, List.mem_cons_self badBlock [], rfl⟩⟩

theorem enrichRow_broadcast_ts (m : LocationIndex) (ts : String) (r : BlockRow) (out : OutRow)
    (h : enrichRow m ts r = Except.ok out) : out._last_changed = ts := by
  unfold enrichRow at h
  cases hc : _calc_ip_range r.network with
  | error e =>
    rw [hc] at h
    cases h
  | ok pr =>
    obtain ⟨sip, eip⟩ := pr
    rw [hc] at h
    cases hl : _lookup_country m r with
    | none =>
      rw [hl] at h
      injection h with h1
      rw [← h1]
    | some cn =>
      rw [hl] at h
      injection h with h1
      rw [← h1]

theorem enrichRows_ok_spec (m : LocationIndex) (ts : String) (blocks : List BlockRow)
    (outs : List OutRow) (h : enrichRows m ts blocks = Except.ok outs) :
    outs.length = blocks.length
    ∧ (∀ o, o ∈ outs → o._last_changed = ts)
    ∧ ∀ i (hb : i < blocks.length) (ho : i < outs.length),
        enrichRow m ts (blocks.get ⟨i, hb⟩) = Except.ok (outs.get ⟨i, ho⟩) := by
  induction blocks generalizing outs with
  | nil =>
    simp only [enrichRows] at h
    injection h with h1
    subst h1
    refine ⟨rfl, by simp, ?_⟩
    intro i hb
    cases hb
  | cons r rest ih =>
    simp only [enrichRows] at h
    cases hr : enrichRow m ts r with
    | error e =>
      rw [hr] at h
      cases h
    | ok out =>
      rw [hr] at h
      cases hrest : enrichRows m ts rest with
      | error e =>
        rw [hrest] at h
        cases h
      | ok outs' =>
        rw [hrest] at h
        injection h with h1
        subst h1
        obtain ⟨hlen, hts, hidx⟩ := ih outs' hrest
        refine ⟨by simp [hlen], ?_, ?_⟩
        · intro o ho
          rcases List.mem_cons.mp ho with rfl | ho'
          · exact enrichRow_broadcast_ts m ts r o hr
          · exact hts o ho'
        · intro i hb ho
          cases i with
          | zero => simpa using hr
          | succ j =>
            simpa using hidx j (by simpa using hb) (by simpa using ho)

/-- C6: a successful run has exactly one output row per input block row, in
the same order (row i of the output is the enrichment of block row i), and
every output row carries the single caller-supplied timestamp in its
_last_changed column. -/
theorem C6_row_count_order_timestamp (locs : List LocRow) (blocks : List BlockRow) (ts : String)
    (outs : List OutRow) (h : merge locs blocks ts = Except.ok outs) :
    outs.length = blocks.length
    ∧ (∀ o, o ∈ outs → o._last_changed = ts)
    ∧ ∃ m, _load_locations locs = Except.ok m ∧
        ∀ i (hb : i < blocks.length) (ho : i < outs.length),
          enrichRow m ts (blocks.get ⟨i, hb⟩) = Except.ok (outs.get ⟨i, ho⟩) := by
  unfold merge at h
  cases hm : _load_locations locs with
  | error e =>
    rw [hm] at h
    cases h
  | ok m =>
    rw [hm] at h
    have h2 : (if blocks.all castRowOk = true then enrichRows m ts blocks
        else Except.error ParseError.Int64CastError) = Except.ok outs := h
    by_cases hc : blocks.all castRowOk = true
    · rw [if_pos hc] at h2
      obtain ⟨hlen, hts, hidx⟩ := enrichRows_ok_spec m ts blocks outs h2
      exact ⟨hlen, hts, m, rfl, hidx⟩
    · rw [if_neg hc] at h2
      cases h2

/-- Witness for C6: the demo run produces exactly one output row for its one
block row. -/
theorem C6_row_count_order_timestamp_witness :
    merge demoLocRows [demoBlock] demoTs = Except.ok demoOut
    ∧ demoOut.length = [demoBlock].length :=
  ⟨rfl, (C6_row_count_order_timestamp demoLocRows [demoBlock] demoTs demoOut rfl).1⟩

theorem load_error_kind (rows : List LocRow) (e : ParseError)
    (h : _load_locations rows = Except.error e) : e = ParseError.MalformedIdentifier := by
  induction rows with
  | nil => cases h
  | cons r rest ih =>
    simp only [_load_locations] at h
    cases hr : pyInt? r.geoname_id with
    | none =>
      rw [hr] at h
      injection h with h1
      exact h1.symm
    | some n =>
      rw [hr] at h
      cases hrec : _load_locations rest with
      | error e2 =>
        rw [hrec] at h
        injection h with h1
        subst h1
        exact ih hrec
      | ok m => rw [hrec] at h; cases h

/-- C7: building the location index fails with the fatal MalformedIdentifier
error exactly when some location row has a non-integer geoname_id; on
success the index has one entry per row, carrying the parsed id with the
country code and name of that row unchanged. -/
theorem C7_location_index_build (rows : List LocRow) :
    (_load_locations rows = Except.error ParseError.MalformedIdentifier
        ↔ ∃ r, r ∈ rows ∧ pyInt? r.geoname_id = none)
    ∧ ∀ m, _load_locations rows = Except.ok m →
        m.length = rows.length
        ∧ ∀ i (hi : i < rows.length) (hm : i < m.length),
            ∃ n, pyInt? (rows.get ⟨i, hi⟩).geoname_id = some n
              ∧ m.get ⟨i, hm⟩ = (n, (rows.get ⟨i, hi⟩).country_iso_code,
                  (rows.get ⟨i, hi⟩).country_name) := by
  induction rows with
  | nil =>
    constructor
    · simp [_load_locations]
    · intro m hm
      simp only [_load_locations] at hm
      injection hm with h1
      subst h1
      refine ⟨rfl, ?_⟩
      intro i hi
      cases hi
  | cons r rest ih =>
    cases hr : pyInt? r.geoname_id with
    | none =>
      constructor
      · constructor
        · intro _
          exact ⟨r, List.mem_cons_self r rest, hr⟩
        · intro _
          simp [_load_locations, hr]
      · intro m hm
        simp only [_load_locations, hr] at hm
        cases hm
    | some n =>
      constructor
      · constructor
        · intro hE
          simp only [_load_locations, hr] at hE
          cases hrec : _load_locations rest with
          | error e2 =>
            obtain ⟨r2, hr2, hbad⟩ := ih.1.mp (by rw [hrec, load_error_kind rest e2 hrec])
            exact ⟨r2, List.mem_cons_of_mem r hr2, hbad⟩
          | ok m' =>
            rw [hrec] at hE
            cases hE
        · rintro ⟨r2, hr2, hbad⟩
          rcases List.mem_cons.mp hr2 with rfl | hr2'
          · rw [hr] at hbad
            cases hbad
          · have hrest := ih.1.mpr ⟨r2, hr2', hbad⟩
            simp [_load_locations, hr, hrest]
      · intro m hm
        simp only [_load_locations, hr] at hm
        cases hrec : _load_locations rest with
        | error e2 =>
          rw [hrec] at hm
          cases hm
        | ok m' =>
          rw [hrec] at hm
          injection hm with h1
          subst h1
          obtain ⟨hlen, hidx⟩ := ih.2 m' hrec
          refine ⟨by simp [hlen], ?_⟩
          intro i hi hmi
          cases i with
          | zero => exact ⟨n, by simpa using hr, by simp⟩
          | succ j =>
            obtain ⟨n2, hn2, hget⟩ := hidx j (by simpa using hi) (by simpa using hmi)
            exact ⟨n2, by simpa using hn2, by simpa using hget⟩

/-- Witness for C7: the demo location rows load into an index of the same
length, and a single row with a non-numeric id aborts the load. -/
theorem C7_location_index_build_witness :
    _load_locations demoLocRows = Except.ok demoIndex
    ∧ demoIndex.length = demoLocRows.length
    ∧ _load_locations [badLocRow] = Except.error ParseError.MalformedIdentifier :=
  ⟨rfl, ((C7_location_index_build demoLocRows).2 demoIndex rfl).1,
    (C7_location_index_build [badLocRow]).1.mpr ⟨badLocRow, List.mem_cons_self badLocRow [], rfl⟩⟩

theorem load_append (xs ys : List LocRow) (m : LocationIndex)
    (h : _load_locations (xs ++ ys) = Except.ok m) :
    ∃ m1 m2, _load_locations xs = Except.ok m1 ∧ _load_locations ys = Except.ok m2
      ∧ m = m1 ++ m2 := by
  induction xs generalizing m with
  | nil => exact ⟨[], m, rfl, h, rfl⟩
  | cons r rest ih =>
    simp only [List.cons_append, _load_locations, List.append_eq] at h
    cases hr : pyInt? r.geoname_id with
    | none =>
      rw [hr] at h
      cases h
    | some n =>
      rw [hr] at h
      cases hrec : _load_locations (rest ++ ys) with
      | error e =>
        rw [hrec] at h
        cases h
      | ok m' =>
        rw [hrec] at h
        injection h with h1
        obtain ⟨m1, m2, h1', h2', rfl⟩ := ih m' hrec
        refine ⟨(n, r.country_iso_code, r.country_name) :: m1, m2, ?_, h2', ?_⟩
        · simp [_load_locations, hr, h1']
        · rw [← h1]
          simp

theorem load_keys (rows : List LocRow) (m : LocationIndex)
    (h : _load_locations rows = Except.ok m) :
    ∀ e, e ∈ m → ∃ r, r ∈ rows ∧ pyInt? r.geoname_id = some e.1 := by
  induction rows generalizing m with
  | nil =>
    simp only [_load_locations] at h
    injection h with h1
    subst h1
    intro e he
    cases he
  | cons r rest ih =>
    simp only [_load_locations] at h
    cases hr : pyInt? r.geoname_id with
    | none =>
      rw [hr] at h
      cases h
    | some n =>
      rw [hr] at h
      cases hrec : _load_locations rest with
      | error e2 =>
        rw [hrec] at h
        cases h
      | ok m' =>
        rw [hrec] at h
        injection h with h1
        subst h1
        intro e he
        rcases List.mem_cons.mp he with rfl | he'
        · exact ⟨r, List.mem_cons_self r rest, hr⟩
        · obtain ⟨r2, hr2, hk⟩ := ih m' hrec e he'
          exact ⟨r2, List.mem_cons_of_mem r hr2, hk⟩

/-- C9: duplicate geoname ids in the location table are not an error; the
index maps such an id to the country data of the last row in input order
that carries it. -/
theorem C9_duplicate_geoname_last_wins (pre : List LocRow) (r : LocRow) (post : List LocRow)
    (m : LocationIndex) (n : Int)
    (hload : _load_locations (pre ++ r :: post) = Except.ok m)
    (hr : pyInt? r.geoname_id = some n)
    (hpost : ∀ r2, r2 ∈ post → pyInt? r2.geoname_id ≠ some n) :
    dictGet? m n = some (r.country_iso_code, r.country_name) := by
  obtain ⟨m1, m2, h1, h2, rfl⟩ := load_append pre (r :: post) m hload
  simp only [_load_locations, hr] at h2
  cases hrec : _load_locations post with
  | error e =>
    rw [hrec] at h2
    cases h2
  | ok mpost =>
    rw [hrec] at h2
    injection h2 with h2'
    subst h2'
    unfold dictGet?
    rw [List.reverse_append, List.reverse_cons, List.find?_append, List.find?_append]
    have hnone : mpost.reverse.find? (fun e => e.1 == n) = none := by
      rw [List.find?_eq_none]
      intro x hx
      have hx' : x ∈ mpost := by simpa using hx
      obtain ⟨r2, hr2, hk⟩ := load_keys post mpost hrec x hx'
      intro hxn
      have hx1 : x.1 = n := eq_of_beq hxn
      rw [hx1] at hk
      exact hpost r2 hr2 hk
    rw [hnone]
    simp

/-- Witness for C9: appending a second row with id 1 (France) after the demo
rows makes the index return France for id 1, the United States entry being
overwritten. -/
theorem C9_duplicate_geoname_last_wins_witness :
    _load_locations (demoLocRows ++ dupRow :: []) =
      Except.ok (demoIndex ++ ((1 : Int), r"FR", r"France") :: [])
    ∧ pyInt? dupRow.geoname_id = some 1
    ∧ dictGet? (demoIndex ++ ((1 : Int), r"FR", r"France") :: []) 1 =
        some (dupRow.country_iso_code, dupRow.country_name) :=
  ⟨rfl, rfl,
    C9_duplicate_geoname_last_wins demoLocRows dupRow []
      (demoIndex ++ ((1 : Int), r"FR", r"France") :: []) 1 rfl rfl (by simp)⟩

theorem enrichRow_congr (m : LocationIndex) (ts : String) (r1 r2 : BlockRow)
    (hnet : r1.network = r2.network)
    (hlk : _lookup_country m r1 = _lookup_country m r2) :
    enrichRow m ts r1 = enrichRow m ts r2 := by
  unfold enrichRow
  rw [hnet, hlk]

theorem merge_head_congr (locs : List LocRow) (r1 r2 : BlockRow) (blocks : List BlockRow)
    (ts : String) (hnet : r1.network = r2.network)
    (hcast : castRowOk r1 = castRowOk r2)
    (hlk : ∀ m, _lookup_country m r1 = _lookup_country m r2) :
    merge locs (r1 :: blocks) ts = merge locs (r2 :: blocks) ts := by
  unfold merge
  cases _load_locations locs with
  | error e => rfl
  | ok m =>
    simp only [List.all_cons, hcast]
    by_cases hc : (castRowOk r2 && blocks.all castRowOk) = true
    · rw [if_pos hc, if_pos hc]
      unfold enrichRows
      rw [enrichRow_congr m ts r1 r2 hnet (hlk m)]
    · rw [if_neg hc, if_neg hc]

/-- C8: a non-numeric (or blank) cell in an optional block identifier field
casts to NA, never to an error: the lookup treats it exactly as an absent
cell in each of the three candidate positions, and the whole run gives the
same result as with the cell absent - processing continues with the
remaining candidates and rows. -/
theorem C8_block_id_coercion_not_fatal (m : LocationIndex) (ts : String) (r : BlockRow)
    (s : String) (hs : toNumeric? s = none) :
    toInt64 (some s) = CastResult.na
    ∧ (_lookup_country m { r with geoname_id := some s }
        = _lookup_country m { r with geoname_id := none })
    ∧ (_lookup_country m { r with registered_country_geoname_id := some s }
        = _lookup_country m { r with registered_country_geoname_id := none })
    ∧ (_lookup_country m { r with represented_country_geoname_id := some s }
        = _lookup_country m { r with represented_country_geoname_id := none })
    ∧ (∀ locs blocks, merge locs ({ r with geoname_id := some s } :: blocks) ts
        = merge locs ({ r with geoname_id := none } :: blocks) ts)
    ∧ (∀ locs blocks, merge locs ({ r with registered_country_geoname_id := some s } :: blocks) ts
        = merge locs ({ r with registered_country_geoname_id := none } :: blocks) ts)
    ∧ (∀ locs blocks, merge locs ({ r with represented_country_geoname_id := some s } :: blocks) ts
        = merge locs ({ r with represented_country_geoname_id := none } :: blocks) ts) := by
  have hna : toInt64 (some s) = CastResult.na := by simp [toInt64, hs]
  have hnone : toInt64 (none : Option String) = CastResult.na := rfl
  have hl1 : ∀ m2 : LocationIndex, _lookup_country m2 { r with geoname_id := some s }
      = _lookup_country m2 { r with geoname_id := none } := by
    intro m2
    simp [_lookup_country, coerceId, hna, hnone]
  have hl2 : ∀ m2 : LocationIndex,
      _lookup_country m2 { r with registered_country_geoname_id := some s }
      = _lookup_country m2 { r with registered_country_geoname_id := none } := by
    intro m2
    simp [_lookup_country, coerceId, hna, hnone]
  have hl3 : ∀ m2 : LocationIndex,
      _lookup_country m2 { r with represented_country_geoname_id := some s }
      = _lookup_country m2 { r with represented_country_geoname_id := none } := by
    intro m2
    simp [_lookup_country, coerceId, hna, hnone]
  have hc1 : castRowOk { r with geoname_id := some s }
      = castRowOk { r with geoname_id := none } := by
    simp [castRowOk, castFails, hna, hnone]
  have hc2 : castRowOk { r with registered_country_geoname_id := some s }
      = castRowOk { r with registered_country_geoname_id := none } := by
    simp [castRowOk, castFails, hna, hnone]
  have hc3 : castRowOk { r with represented_country_geoname_id := some s }
      = castRowOk { r with represented_country_geoname_id := none } := by
    simp [castRowOk, castFails, hna, hnone]
  refine ⟨hna, hl1 m, hl2 m, hl3 m, ?_, ?_, ?_⟩
  · intro locs blocks
    exact merge_head_congr locs _ _ blocks ts rfl hc1 hl1
  · intro locs blocks
    exact merge_head_congr locs _ _ blocks ts rfl hc2 hl2
  · intro locs blocks
    exact merge_head_congr locs _ _ blocks ts rfl hc3 hl3

/-- Witness for C8: the non-numeric cell value x casts to NA and putting it
into the primary id of the demo block behaves like leaving the cell
absent. -/
theorem C8_block_id_coercion_not_fatal_witness :
    toNumeric? (r"x") = none
    ∧ toInt64 (some (r"x")) = CastResult.na
    ∧ _lookup_country demoIndex { demoBlock with geoname_id := some (r"x") }
        = _lookup_country demoIndex { demoBlock with geoname_id := none } :=
  ⟨by decide,
    (C8_block_id_coercion_not_fatal demoIndex demoTs demoBlock (r"x") (by decide)).1,
    (C8_block_id_coercion_not_fatal demoIndex demoTs demoBlock (r"x") (by decide)).2.1⟩

end MergeGeoip
